import Mathlib

/-!
# Verification of the places-search pipeline

Shallow embedding of the search-suggestion pipeline of the repository
(`src/components/PlacesSearch.tsx` and `src/screens/MapScreen.tsx`):
the debounced autocomplete lookup, the response transformation, the
selection flow with its History Store writes, and the map screen's
marker placement.  All state updates of the single-threaded UI loop are
modelled as pure functions on explicit state records; the two remote
endpoints and the key-value persistence slot are modelled by passing
their outcomes (`Except`/`Bool`) as arguments.
-/

set_option autoImplicit false

namespace PlacesApp

/-- The `structured_formatting` field of the normalized `Place` shape
(`PlacesSearch.tsx`, interface `Place`). -/
structure StructuredFormatting where
  main_text : String
  secondary_text : String
deriving DecidableEq, Repr

/-- The normalized place record produced by the autocomplete transformation
and handed around on selection (`PlacesSearch.tsx`, interface `Place`). -/
structure Place where
  place_id : String
  description : String
  structured_formatting : StructuredFormatting
deriving DecidableEq, Repr

/-- The fields of a remote suggestion's `placePrediction` object that the
transformation reads (`PlacesSearch.tsx`, interface `PlacePrediction`):
`placeId` and the two `structuredFormat` text fields. -/
structure PlacePredictionData where
  placeId : String
  mainTextText : String
  secondaryTextText : String
deriving DecidableEq, Repr

/-- One element of the remote response's `suggestions` array; the
`placePrediction` member may be absent (the code filters on its presence). -/
structure Suggestion where
  placePrediction : Option PlacePredictionData
deriving DecidableEq, Repr

/-- The response transformation inside `fetchPredictions`
(`PlacesSearch.tsx` lines 133-145): keep suggestions that carry a
`placePrediction`, then map each to a normalized `Place`; the description
is `mainText.text` plus `' - ' + secondaryText.text` when the secondary
text is non-empty (JS truthiness on a string). -/
def transformPredictions (suggestions : List Suggestion) : List Place :=
  (suggestions.filterMap (fun s => s.placePrediction)).map fun d =>
    { place_id := d.placeId
      description := d.mainTextText ++
        (if d.secondaryTextText ≠ "" then " - " ++ d.secondaryTextText else "")
      structured_formatting :=
        { main_text := d.mainTextText, secondary_text := d.secondaryTextText } }

/-- The transient Query State of the pipeline (`PlacesSearch.tsx` state
hooks): input text, suggestion list, loading flag, focus flag. -/
structure QueryState where
  searchText : String
  predictions : List Place
  loading : Bool
  isInputFocused : Bool
deriving DecidableEq, Repr

/-- The initial Query State of a freshly mounted component. -/
def initQueryState : QueryState :=
  { searchText := "", predictions := [], loading := false, isInputFocused := false }

/-- `handleTextChange` (`PlacesSearch.tsx` lines 208-216): store the new
text; when it is empty, clear the suggestion list and unset the focus flag,
otherwise set the focus flag.  This runs synchronously on the text-change
event, independently of the debounce timer. -/
def handleTextChange (text : String) (s : QueryState) : QueryState :=
  let s1 := { s with searchText := text }
  if text.length = 0 then
    { s1 with predictions := [], isInputFocused := false }
  else
    { s1 with isInputFocused := true }

/-- The synchronous prefix of `fetchPredictions` (`PlacesSearch.tsx` lines
102-108) when the debounce timer fires: if the current text's length
(untrimmed, as in the source) is below 2, clear the suggestion list and
issue no remote call (`none`); otherwise set the loading flag and issue a
remote call carrying the current text (`some text`). -/
def fetchPredictionsStart (s : QueryState) : QueryState × Option String :=
  if s.searchText.length < 2 then
    ({ s with predictions := [] }, none)
  else
    ({ s with loading := true }, some s.searchText)

/-- The continuation of `fetchPredictions` once the remote call settles
(`PlacesSearch.tsx` lines 109-152): on success, replace the suggestion
list with the transformed response; on failure (network error, non-2xx or
malformed body, all landing in the `catch`), only log; the `finally`
clears the loading flag on both paths.  The handler applies the response
unconditionally: there is no request token comparing it with the latest
issued lookup. -/
def applyResponse (r : Except String (List Suggestion)) (s : QueryState) : QueryState :=
  match r with
  | Except.ok data => { s with predictions := transformPredictions data, loading := false }
  | Except.error _ => { s with loading := false }

/-! ## Debounce machine

The `useEffect` on `[searchText, apiKey, userLocation]` (`PlacesSearch.tsx`
lines 101-157) schedules `fetchPredictions` on a 300 ms timer and its
cleanup clears the pending timer.  A text edit therefore (a) runs
`handleTextChange` synchronously and (b) unconditionally replaces any
pending timer with a fresh one capturing the new text.  The timer fires
only after 300 ms without a further edit, so a sequence of edits each
arriving within 300 ms of the previous one fires exactly the last timer. -/

/-- Pipeline state around the debounce timer: the Query State, the pending
timer (carrying the text its `fetchPredictions` closure would read), and
the log of remote autocomplete calls issued so far. -/
structure DebounceState where
  query : QueryState
  timer : Option String
  calls : List String
deriving DecidableEq, Repr

/-- Debounce state of a freshly mounted component (before the mount
effect's own timer is considered). -/
def initDebounceState : DebounceState :=
  { query := initQueryState, timer := none, calls := [] }

/-- One text edit: `handleTextChange` runs synchronously, the effect
cleanup cancels the pending timer, and a new 300 ms timer is scheduled for
the new text. -/
def edit (text : String) (d : DebounceState) : DebounceState :=
  { d with query := handleTextChange text d.query, timer := some text }

/-- The pending timer fires: `fetchPredictionsStart` runs on the captured
text; when it issues a remote call the call is appended to the call log.
With no pending timer nothing happens. -/
def fireTimer (d : DebounceState) : DebounceState :=
  match d.timer with
  | none => d
  | some text =>
      let (q, call) := fetchPredictionsStart { d.query with searchText := text }
      { query := q
        timer := none
        calls := d.calls ++ call.toList }

/-- A burst of edits each arriving within 300 ms of the previous one,
followed by a quiet period: every intermediate timer is cancelled by the
next edit, and only the timer of the last edit fires. -/
def rapidEdits (edits : List String) (d : DebounceState) : DebounceState :=
  fireTimer (edits.foldl (fun d t => edit t d) d)

/-! ## Selection and the History Store

On pressing a displayed item, `PlacesSearch.handlePlaceSelect`
(lines 186-193) calls the external `onPlaceSelect` callback — which is
`MapScreen.handlePlaceSelect` (lines 90-117), whose `saveSearchHistory`
(lines 60-68) prepends to its own in-memory history and writes the
`searchHistory` slot — then resets the Query State and runs
`saveToRecentSearches` (lines 159-184), which reads the slot, removes
entries sharing the selected id, prepends, caps at 10, writes the slot
and updates the component's in-memory list.  AsyncStorage operations are
initiated in program order, so the pipeline's read observes the map
screen's write. -/

/-- The new-list computation of `PlacesSearch.saveToRecentSearches`
(lines 162-174): drop entries whose `place_id` equals the selected one,
prepend the selected place, keep the first 10. -/
def saveToRecentSearchesList (place : Place) (stored : List Place) : List Place :=
  (place :: stored.filter (fun p => p.place_id != place.place_id)).take 10

/-- The new-list computation of `MapScreen.saveSearchHistory` (line 62):
prepend to the in-memory history and keep the first 10 — no
deduplication. -/
def saveSearchHistoryList (place : Place) (history : List Place) : List Place :=
  (place :: history).take 10

/-- The persistent slot and the two components' in-memory copies of the
history. -/
structure HistoryState where
  store : List Place
  msHistory : List Place
  psRecent : List Place
deriving DecidableEq, Repr

/-- History state with nothing persisted and both components freshly
mounted over an empty slot. -/
def initHistoryState : HistoryState :=
  { store := [], msHistory := [], psRecent := [] }

/-- One selection with both persistence writes succeeding: first
`MapScreen.saveSearchHistory` writes its prepend-and-cap list, then
`PlacesSearch.saveToRecentSearches` reads the slot and writes its
dedup-prepend-cap list. -/
def selectionStep (place : Place) (s : HistoryState) : HistoryState :=
  let mh := saveSearchHistoryList place s.msHistory
  let r := saveToRecentSearchesList place mh
  { store := r, msHistory := mh, psRecent := r }

/-- Observable events of one selection, in order of occurrence. -/
inductive SelectEvent where
  | callbackEmit (place : Place)
  | storeWrite (slotValue : List Place)
deriving DecidableEq, Repr

/-- Whether an event is an emission of a Place Record to the external
selection callback. -/
def SelectEvent.isCallbackEmit : SelectEvent → Bool
  | SelectEvent.callbackEmit _ => true
  | SelectEvent.storeWrite _ => false

/-- Whether an event is a write to the persistent `searchHistory` slot. -/
def SelectEvent.isStoreWrite : SelectEvent → Bool
  | SelectEvent.callbackEmit _ => false
  | SelectEvent.storeWrite _ => true

/-- The event trace of one selection (both writes succeeding):
`PlacesSearch.handlePlaceSelect` hands the record to `onPlaceSelect`,
inside which `MapScreen.saveSearchHistory` writes the slot; afterwards
`saveToRecentSearches` writes the slot again. -/
def selectionEvents (place : Place) (s : HistoryState) : List SelectEvent :=
  let mh := saveSearchHistoryList place s.msHistory
  let r := saveToRecentSearchesList place mh
  [SelectEvent.callbackEmit place, SelectEvent.storeWrite mh, SelectEvent.storeWrite r]

/-- Outcome of one run of `PlacesSearch.handlePlaceSelect`: the Query
State afterwards, the component's in-memory recent list, the persistent
slot contents and the Place Records emitted to the external callback. -/
structure SelectRunResult where
  query : QueryState
  recent : List Place
  stored : List Place
  emitted : List Place
deriving DecidableEq, Repr

/-- `PlacesSearch.handlePlaceSelect` together with `saveToRecentSearches`,
with the persistence write's outcome passed in (`persistOk`).  The record
is handed to `onPlaceSelect` first, then the Query State is reset, then
`saveToRecentSearches` runs.  On a failed write its `catch` only logs:
`setRecentSearches` is never reached, so the in-memory list keeps its old
value, the slot is not overwritten, and the callback emission and the
state reset before it are unaffected. -/
def handlePlaceSelectRun (place : Place) (q : QueryState) (recent stored : List Place)
    (persistOk : Bool) : SelectRunResult :=
  let q1 := { q with searchText := "", predictions := [], isInputFocused := false }
  let r := saveToRecentSearchesList place stored
  if persistOk then
    { query := q1, recent := r, stored := r, emitted := [place] }
  else
    { query := q1, recent := recent, stored := stored, emitted := [place] }

/-! ## Map presentation

`MapScreen.tsx`: `region` state (lines 37-42), `selectedPlace` state, and
the `Marker` (lines 128-137) whose coordinate is the selected place's
location when present and otherwise the current `region`.  Coordinates are
modelled over `ℚ`. -/

/-- A map region: center coordinate plus zoom deltas (`react-native-maps`
`Region`, `MapScreen.tsx` lines 37-42). -/
structure MapRegion where
  latitude : ℚ
  longitude : ℚ
  latitudeDelta : ℚ
  longitudeDelta : ℚ
deriving DecidableEq, Repr

/-- The selected place as held by `MapScreen`: the record handed over on
selection, with the optional location filled in by a successful detail
resolution. -/
structure SelectedPlace where
  place : Place
  location : Option (ℚ × ℚ)
deriving DecidableEq, Repr

/-- `MapScreen` state: the optional selected place and the map region. -/
structure MapState where
  selectedPlace : Option SelectedPlace
  region : MapRegion
deriving DecidableEq, Repr

/-- The hard-coded initial region of `MapScreen` (lines 37-42). -/
def initRegion : MapRegion :=
  { latitude := 37.78825, longitude := -122.4324
    latitudeDelta := 0.0922, longitudeDelta := 0.0421 }

/-- Initial `MapScreen` state: no selection, default region. -/
def initMapState : MapState :=
  { selectedPlace := none, region := initRegion }

/-- `MapScreen.handlePlaceSelect` when the detail request succeeds with
coordinate `loc` (lines 90-113): the selected place gains the location and
the region re-centers on it with the fixed deltas. -/
def selectResolveSuccess (place : Place) (loc : ℚ × ℚ) (s : MapState) : MapState :=
  let _ := s
  { selectedPlace := some { place := place, location := some loc }
    region := { latitude := loc.1, longitude := loc.2
                latitudeDelta := 0.0922, longitudeDelta := 0.0421 } }

/-- `MapScreen.handlePlaceSelect` when the detail request fails (lines
90-94 and the `catch` at 114-116): the selected place is replaced by the
incoming record, which carries no location, and the `catch` only logs —
region untouched. -/
def selectResolveFailure (place : Place) (s : MapState) : MapState :=
  { s with selectedPlace := some { place := place, location := none } }

/-- A late completion of `getUserLocation` (lines 70-88): the region
re-centers on the device coordinate; the selected place is untouched. -/
def userLocationArrives (loc : ℚ × ℚ) (s : MapState) : MapState :=
  { s with region := { latitude := loc.1, longitude := loc.2
                       latitudeDelta := 0.0922, longitudeDelta := 0.0421 } }

/-- The coordinate the `Marker` is rendered at (lines 128-137): `none`
when no place is selected; otherwise the selected place's location, or the
current region's center when the location is absent. -/
def markerCoordinate (s : MapState) : Option (ℚ × ℚ) :=
  s.selectedPlace.map fun sp => sp.location.getD (s.region.latitude, s.region.longitude)

/-! ## Concrete sample data used by counterexamples and witnesses -/

/-- A sample remote suggestion ("Alpha"). -/
def suggestionA : Suggestion :=
  { placePrediction := some { placeId := "idA", mainTextText := "Alpha", secondaryTextText := "A-City" } }

/-- A sample remote suggestion ("Beta"). -/
def suggestionB : Suggestion :=
  { placePrediction := some { placeId := "idB", mainTextText := "Beta", secondaryTextText := "B-City" } }

/-- A sample place with id `q1`. -/
def placeQ : Place :=
  { place_id := "q1", description := "Q Place - Qtown"
    structured_formatting := { main_text := "Q Place", secondary_text := "Qtown" } }

/-- A sample place with id `p1`. -/
def placeP : Place :=
  { place_id := "p1", description := "P Place - Ptown"
    structured_formatting := { main_text := "P Place", secondary_text := "Ptown" } }

/-! ## Claims -/

/-- **C6** — For every remote autocomplete lookup that fails (network
error, non-2xx, or malformed body all land in the `catch`), after the
lookup completes the loading flag is false and the suggestion list is
exactly what it was before the call; the `finally` releases the loading
flag on success as well. -/
theorem c6_lookup_failure_leaves_list (s : QueryState) (e : String) (d : List Suggestion) :
    (applyResponse (Except.error e) s).predictions = s.predictions ∧
    (applyResponse (Except.error e) s).loading = false ∧
    (applyResponse (Except.ok d) s).loading = false :=
  ⟨rfl, rfl, rfl⟩

/-- **C10** — A text-change event with empty new text clears the
suggestion list and unsets the focus flag synchronously in the edit step
itself (before any debounce timer fires); non-empty new text sets the
focus flag. -/
theorem c10_empty_text_clears (d : DebounceState) (t : String) :
    (t.length = 0 →
      (edit t d).query.predictions = [] ∧ (edit t d).query.isInputFocused = false) ∧
    (t.length ≠ 0 → (edit t d).query.isInputFocused = true) := by
  constructor
  · intro h
    simp [edit, handleTextChange, h]
  · intro h
    simp [edit, handleTextChange, h]

/-- Witness for C10 at the empty and a non-empty text. -/
theorem c10_empty_text_clears_witness :
    ((edit "" initDebounceState).query.predictions = [] ∧
      (edit "" initDebounceState).query.isInputFocused = false) ∧
    (edit "a" initDebounceState).query.isInputFocused = true :=
  ⟨(c10_empty_text_clears initDebounceState "").1 (by decide),
   (c10_empty_text_clears initDebounceState "a").2 (by decide)⟩

/-- The length of the input after stripping leading and trailing
whitespace.  Stated from the spec's words ("trimmed input length"): the
source never trims, which is what claim C4 turns on. -/
def trimmedLength (s : String) : Nat :=
  ((s.toList.dropWhile Char.isWhitespace).reverse.dropWhile Char.isWhitespace).length

/-- **C4, counterexample** — the code guards on the raw length
(`searchText.length < 2`), not the trimmed length: the input `"a "` has
trimmed length 1, yet a remote call is issued for it. -/
theorem c4_trim_counterexample :
    trimmedLength "a " < 2 ∧
    (fetchPredictionsStart { initQueryState with searchText := "a " }).2 ≠ none := by
  constructor
  · decide
  · decide

/-- **C4, amended** — for every Query State whose (untrimmed) text length
is below 2, firing the lookup issues no remote call and clears the
suggestion list. -/
theorem c4_short_input_no_call (s : QueryState) (h : s.searchText.length < 2) :
    (fetchPredictionsStart s).2 = none ∧ (fetchPredictionsStart s).1.predictions = [] := by
  unfold fetchPredictionsStart
  rw [if_pos h]
  exact ⟨rfl, rfl⟩

/-- Witness for C4 (amended) at the one-character input `"a"`. -/
theorem c4_short_input_no_call_witness :
    ({ initQueryState with searchText := "a" } : QueryState).searchText.length < 2 ∧
    (fetchPredictionsStart { initQueryState with searchText := "a" }).2 = none ∧
    (fetchPredictionsStart { initQueryState with searchText := "a" }).1.predictions = [] :=
  ⟨by decide, c4_short_input_no_call { initQueryState with searchText := "a" } (by decide)⟩

/-- **C1** — the response handler applies any settled response with no
request token: issuing query "al" (response `[suggestionA]`), then query
"be" (response `[suggestionB]`), with B's response applied first and A's
stale response second, leaves the displayed list reflecting the
superseded query A, not B — the claimed discard does not happen. -/
theorem c1_stale_response_displayed :
    (applyResponse (Except.ok [suggestionA])
        (applyResponse (Except.ok [suggestionB])
          { initQueryState with searchText := "be", loading := true })).predictions
      = transformPredictions [suggestionA] ∧
    transformPredictions [suggestionA] ≠ transformPredictions [suggestionB] := by
  constructor
  · rfl
  · decide

/-- **C2** — three selections from an empty history (place `q1`, place
`q1` again, then place `p1`) leave the persisted slot at `[p1, q1, q1]`:
`MapScreen.saveSearchHistory` prepends without deduplication, its
in-memory copy carries the duplicate into the next selection's write, and
`saveToRecentSearches` removes only the currently selected id — so the
persisted History List violates the no-duplicate-ids invariant. -/
theorem c2_duplicate_ids_persisted :
    (selectionStep placeP (selectionStep placeQ (selectionStep placeQ initHistoryState))).store.map
        Place.place_id = ["p1", "q1", "q1"] ∧
    ¬ ((selectionStep placeP (selectionStep placeQ (selectionStep placeQ
        initHistoryState))).store.map Place.place_id).Nodup := by
  constructor
  · decide
  · decide

/-- **C3, counterexample** — one selection writes the persistent slot
twice, not once: `MapScreen.saveSearchHistory` (inside the callback) and
`PlacesSearch.saveToRecentSearches` each perform a write. -/
theorem c3_two_writes_counterexample :
    ((selectionEvents placeQ initHistoryState).filter SelectEvent.isStoreWrite).length = 2 ∧
    ((selectionEvents placeQ initHistoryState).filter SelectEvent.isStoreWrite).length ≠ 1 := by
  constructor
  · decide
  · decide

/-- **C3, amended** — every selection hands exactly one Place Record to
the external callback, and the persistent slot receives exactly two
writes: one from the map screen's handler inside the callback, one from
the search pipeline. -/
theorem c3_one_emit_two_writes (place : Place) (s : HistoryState) :
    ((selectionEvents place s).filter SelectEvent.isCallbackEmit).length = 1 ∧
    ((selectionEvents place s).filter SelectEvent.isStoreWrite).length = 2 :=
  ⟨rfl, rfl⟩

/-- **C5, counterexample** — with a failing persistence write, the
in-memory recent list is not updated: starting from an empty list,
selecting `placeQ` leaves it empty instead of the deduplicated, capped
`[placeQ]` — `setRecentSearches` sits after the `await` of the write and
is skipped when the write throws. -/
theorem c5_inmemory_counterexample :
    (handlePlaceSelectRun placeQ initQueryState [] [] false).recent = [] ∧
    saveToRecentSearchesList placeQ [] = [placeQ] ∧
    ([] : List Place) ≠ [placeQ] := by
  refine ⟨rfl, rfl, ?_⟩
  decide

/-- **C5, amended** — on a failing persistence write the selection
callback still fires with exactly the selected record and no fault
propagates, but the in-memory History List is left unchanged (and the
slot is not overwritten); the in-memory list receives the deduplicated,
capped new list only when the write succeeds. -/
theorem c5_persist_failure_behavior (place : Place) (q : QueryState)
    (recent stored : List Place) :
    (handlePlaceSelectRun place q recent stored false).emitted = [place] ∧
    (handlePlaceSelectRun place q recent stored false).recent = recent ∧
    (handlePlaceSelectRun place q recent stored false).stored = stored ∧
    (handlePlaceSelectRun place q recent stored true).recent =
      saveToRecentSearchesList place stored :=
  ⟨rfl, rfl, rfl, rfl⟩

/-- **C7, counterexample** — the marker is not kept at its previous
position in general: after a successful resolution at (48, 2) the marker
sits there, a late device-location update re-centers the region at
(10, 10), and a subsequent selection whose detail resolution fails makes
the marker fall back to the region center (10, 10) — it moves. -/
theorem c7_marker_moves_counterexample :
    markerCoordinate
        (userLocationArrives (10, 10) (selectResolveSuccess placeQ (48, 2) initMapState))
      = some (48, 2) ∧
    markerCoordinate (selectResolveFailure placeP
        (userLocationArrives (10, 10) (selectResolveSuccess placeQ (48, 2) initMapState)))
      = some (10, 10) ∧
    ((10 : ℚ), (10 : ℚ)) ≠ ((48 : ℚ), (2 : ℚ)) := by
  refine ⟨rfl, rfl, ?_⟩
  decide

/-- **C7, amended** — after a failed detail resolution the marker is not
cleared: it is rendered at the current region center.  It therefore stays
at the previous marker position exactly when the region center coincides
with that position (as it does right after a successful resolution, which
re-centers the region on the marker). -/
theorem c7_marker_kept_when_region_matches (s : MapState) (place : Place) (c : ℚ × ℚ)
    (hm : markerCoordinate s = some c)
    (hr : (s.region.latitude, s.region.longitude) = c) :
    markerCoordinate (selectResolveFailure place s) = some c := by
  have _ := hm
  simp [markerCoordinate, selectResolveFailure, Option.getD, hr]

/-- Witness for C7 (amended): right after a successful resolution at
(48, 2), a failed resolution leaves the marker at (48, 2). -/
theorem c7_marker_kept_witness :
    markerCoordinate (selectResolveSuccess placeQ (48, 2) initMapState) = some (48, 2) ∧
    ((selectResolveSuccess placeQ (48, 2) initMapState).region.latitude,
      (selectResolveSuccess placeQ (48, 2) initMapState).region.longitude) = ((48 : ℚ), 2) ∧
    markerCoordinate
        (selectResolveFailure placeP (selectResolveSuccess placeQ (48, 2) initMapState))
      = some (48, 2) :=
  ⟨rfl, rfl,
    c7_marker_kept_when_region_matches (selectResolveSuccess placeQ (48, 2) initMapState)
      placeP (48, 2) rfl rfl⟩

/-- A burst of edits never touches the call log: edits only run
`handleTextChange` and reschedule the timer. -/
theorem foldl_edit_calls (edits : List String) (d : DebounceState) :
    (edits.foldl (fun d t => edit t d) d).calls = d.calls := by
  induction edits generalizing d with
  | nil => rfl
  | cons t ts ih => simpa [edit] using ih (edit t d)

/-- **C8, counterexample** — two rapid edits `"ab"` then `"a"` issue no
remote call at all (the final text is below the length-2 guard), refuting
"exactly one remote autocomplete call is issued". -/
theorem c8_no_call_counterexample :
    (rapidEdits ["ab", "a"] initDebounceState).calls = [] ∧
    (rapidEdits ["ab", "a"] initDebounceState).calls.length ≠ 1 := by
  constructor
  · decide
  · decide

/-- **C8, amended** — for every burst of edits each arriving within
300 ms of the previous one, every pending timer is cancelled by the next
edit (the timer always holds the newest text) and only the final edit's
timer fires: at most one remote call is issued, carrying exactly the
final text — exactly one when the final text has length ≥ 2, none
otherwise. -/
theorem c8_debounce_single_call (d : DebounceState) (edits : List String) (last : String) :
    (rapidEdits (edits ++ [last]) d).calls =
      d.calls ++ (if last.length < 2 then [] else [last]) ∧
    (edit last d).timer = some last := by
  refine ⟨?_, rfl⟩
  unfold rapidEdits
  rw [List.foldl_append]
  simp only [List.foldl_cons, List.foldl_nil]
  have hcalls := foldl_edit_calls edits d
  generalize List.foldl (fun d t => edit t d) d edits = D at hcalls ⊢
  by_cases h : last.length < 2
  · simp [fireTimer, edit, fetchPredictionsStart, h, hcalls]
  · simp [fireTimer, edit, fetchPredictionsStart, h, hcalls]

/-- Evaluation of C8 (amended) on the burst `"e"`, `"ei"`, `"eif"`:
exactly one call, carrying `"eif"`. -/
theorem c8_debounce_example :
    (rapidEdits ["e", "ei", "eif"] initDebounceState).calls = ["eif"] := by
  decide

/-- Removing the entries sharing one id present in a list with pairwise
distinct ids shortens the list by exactly one. -/
theorem filter_ne_id_length (a : String) (l : List Place)
    (hnd : (l.map Place.place_id).Nodup) (hmem : a ∈ l.map Place.place_id) :
    (l.filter (fun q => q.place_id != a)).length + 1 = l.length := by
  induction l with
  | nil => simp at hmem
  | cons x xs ih =>
    rw [List.map_cons, List.nodup_cons] at hnd
    obtain ⟨hnotin, hnd2⟩ := hnd
    by_cases hx : x.place_id = a
    · have hxs : xs.filter (fun q => q.place_id != a) = xs := by
        apply List.filter_eq_self.mpr
        intro q hq
        simp only [bne_iff_ne, ne_eq]
        intro hqa
        have hqmem : q.place_id ∈ xs.map Place.place_id :=
          List.mem_map_of_mem Place.place_id hq
        rw [hqa, ← hx] at hqmem
        exact hnotin hqmem
      have hpx : (x.place_id != a) = false := by
        simp [hx]
      simp [List.filter_cons, hpx, hxs]
    · have hmem2 : a ∈ xs.map Place.place_id := by
        rcases List.mem_cons.mp hmem with h | h
        · exact absurd h.symm hx
        · exact h
      have hpx : (x.place_id != a) = true := by
        simp [hx]
      have hih := ih hnd2 hmem2
      simp [List.filter_cons, hpx]
      omega

/-- **C9** — appending a Place Record whose id already occurs in a
History List satisfying the §3 invariant (pairwise distinct ids, length
at most 10) leaves the length unchanged and puts the new record at the
front. -/
theorem c9_append_existing_id (place : Place) (l : List Place)
    (hnd : (l.map Place.place_id).Nodup) (hlen : l.length ≤ 10)
    (hmem : place.place_id ∈ l.map Place.place_id) :
    (saveToRecentSearchesList place l).length = l.length ∧
    (saveToRecentSearchesList place l).head? = some place := by
  have hf := filter_ne_id_length place.place_id l hnd hmem
  unfold saveToRecentSearchesList
  have hlen2 : (place :: l.filter (fun q => q.place_id != place.place_id)).length ≤ 10 := by
    rw [List.length_cons]
    omega
  rw [List.take_of_length_le hlen2]
  exact ⟨by rw [List.length_cons]; omega, rfl⟩

/-- Witness for C9: appending `placeP` (id `p1`) to the invariant-holding
list `[placeQ, placeP]` keeps length 2 and moves the `p1` entry to the
front. -/
theorem c9_append_existing_id_witness :
    (([placeQ, placeP].map Place.place_id).Nodup ∧ [placeQ, placeP].length ≤ 10 ∧
      placeP.place_id ∈ [placeQ, placeP].map Place.place_id) ∧
    (saveToRecentSearchesList placeP [placeQ, placeP]).length = 2 ∧
    (saveToRecentSearchesList placeP [placeQ, placeP]).head? = some placeP :=
  ⟨⟨by decide, by decide, by decide⟩,
    c9_append_existing_id placeP [placeQ, placeP] (by decide) (by decide) (by decide)⟩

end PlacesApp
